import Mathlib

/-!
Verification of the SONiC state-management core (`src/lib/sonic_state.py`).

The Python module is shallowly embedded as pure Lean functions:

* byte payloads (`bytes`) are modelled as `String` (the module only ever
  decodes them as text or passes them through opaquely); Python truthiness of
  a byte payload (`if data:`) is the `dataOrNone` collapse below;
* a filesystem root is a finite map from logical path to file content, plus a
  map of permission modes (`chmod` results) and a map from directory path to
  the opaque tar blob `read_directory` would produce for that subtree.  The
  Python `FilesystemAdapter` resolves a logical path `p` to `root / p.lstrip('/')`,
  a bijection between logical paths and locations under the root, so the state
  under one root is modelled directly as one `Filesystem` value keyed by
  logical paths;
* the tar.gz archive file is modelled as the manifest component list plus the
  map of `data/`-namespaced entries (`SavedArchive`); the manifest timestamp,
  hostname and version-string fields are environment inputs that no operation
  reads back, so they are not represented;
* all mutating operations take and return states explicitly; `dry_run`
  gates each mutating write exactly where the Python code checks it.
-/

set_option maxRecDepth 20000

namespace SonicState

/-- Byte payloads (`bytes` in the Python source). -/
abbrev Bytes := String

/-- Lookup in a Python-`dict`-like association list (first match wins;
`dictInsert` keeps keys unique). -/
def dictLookup {β : Type} : List (String × β) → String → Option β
  | [], _ => none
  | (k, v) :: rest, q => if k = q then some v else dictLookup rest q

/-- Assignment `d[k] = v` on a Python-`dict`-like association list: replaces the
value in place if the key is present, otherwise appends at the end (Python
dicts preserve insertion order and append new keys at the end). -/
def dictInsert {β : Type} : List (String × β) → String → β → List (String × β)
  | [], k, v => [(k, v)]
  | (k', v') :: rest, k, v =>
      if k' = k then (k, v) :: rest else (k', v') :: dictInsert rest k v

/-- Python truthiness of an optional byte payload: `if data:` is false both
when the read returned `None` and when it returned the empty byte string. -/
def dataOrNone : Option Bytes → Option Bytes
  | some s => if s = "" then none else some s
  | none => none

/-- Python truthiness of an optional string (`if component.special_handler:`):
`None` and the empty string are falsy. -/
def optStrTruthy : Option String → Bool
  | some s => if s = "" then false else true
  | none => false

/-- `str.splitlines()` restricted to the terminators `\n`, `\r\n`, `\r`
(accumulator holds the current line reversed; no trailing empty line). -/
def pySplitlinesAux : List Char → List Char → List String
  | [], [] => []
  | [], acc => [String.mk acc.reverse]
  | '\r' :: '\n' :: rest, acc => String.mk acc.reverse :: pySplitlinesAux rest []
  | '\r' :: rest, acc => String.mk acc.reverse :: pySplitlinesAux rest []
  | '\n' :: rest, acc => String.mk acc.reverse :: pySplitlinesAux rest []
  | c :: rest, acc => pySplitlinesAux rest (c :: acc)

/-- `shadow_data.decode().splitlines()` from the `admin_shadow` handler. -/
def pySplitlines (s : String) : List String := pySplitlinesAux s.data []

/-- The first list is a leading segment of the second (structural helper for
`str.startswith`). -/
def strLeads : List Char → List Char → Bool
  | [], _ => true
  | _ :: _, [] => false
  | p :: ps, c :: cs => if p = c then strLeads ps cs else false

/-- `line.startswith(pre)` over the underlying character lists. -/
def strStartsWith (s pre : String) : Bool := strLeads pre.data s.data

/-- `StateComponent` dataclass: one declared unit of system state. -/
structure StateComponent where
  name : String
  path : String
  component_type : String
  required : Bool := true
  preserve_permissions : Bool := true
  special_handler : Option String := none
  deriving DecidableEq, Repr

/-- Registry entry `sonic_config`. -/
def sonic_config_component : StateComponent :=
  { name := "sonic_config", path := "/etc/sonic/config_db.json", component_type := "file" }

/-- Registry entry `user_data`. -/
def user_data_component : StateComponent :=
  { name := "user_data", path := "/home", component_type := "directory",
    special_handler := some "home_directories" }

/-- Registry entry `ssh_infrastructure`. -/
def ssh_infrastructure_component : StateComponent :=
  { name := "ssh_infrastructure", path := "/etc/ssh", component_type := "directory",
    special_handler := some "ssh_config" }

/-- Registry entry `system_mounts`. -/
def system_mounts_component : StateComponent :=
  { name := "system_mounts", path := "/etc/fstab", component_type := "file" }

/-- Registry entry `fan_control` (the only optional component). -/
def fan_control_component : StateComponent :=
  { name := "fan_control", path := "/etc/sonic/custom-fan/fancontrol",
    component_type := "file", required := false }

/-- Registry entry `admin_auth`. -/
def admin_auth_component : StateComponent :=
  { name := "admin_auth", path := "/etc/shadow", component_type := "file",
    special_handler := some "admin_shadow" }

/-- `SONIC_STATE_COMPONENTS`: the registry, in the dict's insertion order,
which is the order `.values()` yields in every operation loop. -/
def SONIC_STATE_COMPONENTS : List StateComponent :=
  [sonic_config_component, user_data_component, ssh_infrastructure_component,
   system_mounts_component, fan_control_component, admin_auth_component]

/-- The state of one filesystem root: file contents, permission modes set by
`chmod` (no entry means the file was never explicitly chmod-ed and carries the
creation default), and the opaque tar blob each directory subtree serializes
to. -/
structure Filesystem where
  files : List (String × Bytes)
  modes : List (String × Nat)
  dirs : List (String × Bytes)
  deriving DecidableEq, Repr

/-- `FilesystemAdapter`: a root plus the `dry_run` flag. -/
structure FilesystemAdapter where
  fs : Filesystem
  dry_run : Bool
  deriving DecidableEq, Repr

/-- `FilesystemAdapter.exists`: the resolved path exists (as file or directory). -/
def FilesystemAdapter.exists_ (a : FilesystemAdapter) (path : String) : Bool :=
  (dictLookup a.fs.files path).isSome || (dictLookup a.fs.dirs path).isSome

/-- `FilesystemAdapter.read_file`: `None` when absent; a directory at the path
makes `read_bytes` raise, which is caught and also returns `None`, so the
result is exactly the file-map lookup. -/
def FilesystemAdapter.read_file (a : FilesystemAdapter) (path : String) : Option Bytes :=
  dictLookup a.fs.files path

/-- `FilesystemAdapter.write_file`: no-op under dry-run; otherwise writes the
bytes (creating parents) and applies `chmod mode` when a mode is supplied.
With no mode, an overwritten file keeps its previous mode and a fresh file
keeps the creation default (no `modes` entry). -/
def FilesystemAdapter.write_file (a : FilesystemAdapter) (path : String) (data : Bytes)
    (mode : Option Nat) : FilesystemAdapter :=
  if a.dry_run then a
  else
    { a with
      fs :=
        { a.fs with
          files := dictInsert a.fs.files path data
          modes :=
            match mode with
            | some m => dictInsert a.fs.modes path m
            | none => a.fs.modes } }

/-- `FilesystemAdapter.read_directory`: the tar blob of the subtree, `None`
when the directory is absent (a failure while archiving is caught and also
yields `None`). -/
def FilesystemAdapter.read_directory (a : FilesystemAdapter) (path : String) : Option Bytes :=
  dictLookup a.fs.dirs path

/-- `FilesystemAdapter.write_directory`: no-op under dry-run; otherwise
creates the directory and extracts the blob into it.  Extraction into a path
that already held a tree merges member-by-member; the model records the blob
that now describes the subtree, which is exact whenever the path was
previously absent (the situation every claim exercises). -/
def FilesystemAdapter.write_directory (a : FilesystemAdapter) (path : String)
    (data : Bytes) : FilesystemAdapter :=
  if a.dry_run then a
  else { a with fs := { a.fs with dirs := dictInsert a.fs.dirs path data } }

/-- The durable tar.gz archive file: manifest component list plus the
`data/`-prefixed entries with the prefix stripped (the prefix is added at save
time and stripped at load time, an identity round trip). -/
structure SavedArchive where
  manifest_components : List String
  data : List (String × Bytes)
  deriving DecidableEq, Repr

/-- `BackupAdapter`: in-memory entry cache `_data`, loaded manifest
`_metadata` (only its `components` list is ever representable), and the
`dry_run` flag. -/
structure BackupAdapter where
  _data : List (String × Bytes)
  _metadata : List String
  dry_run : Bool
  deriving DecidableEq, Repr

/-- `BackupAdapter(path, 'r')`: when the archive file exists its manifest and
entries are loaded eagerly; when it does not exist (`archive_file = none`)
`_load_backup` is skipped and the adapter starts with empty `_data` and
`_metadata`. -/
def BackupAdapter.openRead (archive_file : Option SavedArchive) (dry_run : Bool) :
    BackupAdapter :=
  match archive_file with
  | some a => { _data := a.data, _metadata := a.manifest_components, dry_run := dry_run }
  | none => { _data := [], _metadata := [], dry_run := dry_run }

/-- `BackupAdapter(path, 'w')`: empty caches. -/
def BackupAdapter.openWrite (dry_run : Bool) : BackupAdapter :=
  { _data := [], _metadata := [], dry_run := dry_run }

/-- `BackupAdapter.save_backup`: under dry-run nothing is persisted; otherwise
the archive file is (re)written with a manifest whose `components` field lists
the keys of `_data`, plus every collected entry. -/
def BackupAdapter.save_backup (b : BackupAdapter) : Option SavedArchive :=
  if b.dry_run then none
  else some { manifest_components := b._data.map Prod.fst, data := b._data }

/-- `BackupAdapter.exists`. -/
def BackupAdapter.exists_ (b : BackupAdapter) (path : String) : Bool :=
  (dictLookup b._data path).isSome

/-- `BackupAdapter.read_file`. -/
def BackupAdapter.read_file (b : BackupAdapter) (path : String) : Option Bytes :=
  dictLookup b._data path

/-- `BackupAdapter.write_file`: stores the raw bytes keyed by path; the `mode`
argument is accepted and ignored. -/
def BackupAdapter.write_file (b : BackupAdapter) (path : String) (data : Bytes)
    (_mode : Option Nat) : BackupAdapter :=
  { b with _data := dictInsert b._data path data }

/-- `BackupAdapter.read_directory`: directories are stored as tar blobs in the
same namespace as files. -/
def BackupAdapter.read_directory (b : BackupAdapter) (path : String) : Option Bytes :=
  dictLookup b._data path

/-- `BackupAdapter.write_directory`. -/
def BackupAdapter.write_directory (b : BackupAdapter) (path : String) (data : Bytes) :
    BackupAdapter :=
  { b with _data := dictInsert b._data path data }

/-- The `StateAdapter` abstract base class. -/
class StateAdapter (α : Type) where
  read_file : α → String → Option Bytes
  write_file : α → String → Bytes → Option Nat → α
  read_directory : α → String → Option Bytes
  write_directory : α → String → Bytes → α
  exists_ : α → String → Bool

/-- `FilesystemAdapter` conforms to `StateAdapter`. -/
instance instSAFilesystem : StateAdapter FilesystemAdapter where
  read_file := FilesystemAdapter.read_file
  write_file := FilesystemAdapter.write_file
  read_directory := FilesystemAdapter.read_directory
  write_directory := FilesystemAdapter.write_directory
  exists_ := FilesystemAdapter.exists_

/-- `BackupAdapter` conforms to `StateAdapter`. -/
instance instSABackup : StateAdapter BackupAdapter where
  read_file := BackupAdapter.read_file
  write_file := BackupAdapter.write_file
  read_directory := BackupAdapter.read_directory
  write_directory := BackupAdapter.write_directory
  exists_ := BackupAdapter.exists_

/-- The recurring Python pattern `data = source.read...; if data: dest.write_file(path, data, mode)`
as one combinator: absent (or empty, hence falsy) data leaves `dest`
unchanged, truthy data performs the single write. -/
def cond_write_file {δ : Type} [StateAdapter δ] (dest : δ) (path : String)
    (r : Option Bytes) (mode : Option Nat) : δ :=
  match r with
  | some data => StateAdapter.write_file dest path data mode
  | none => dest

/-- The same guarded-write pattern for directory blobs. -/
def cond_write_directory {δ : Type} [StateAdapter δ] (dest : δ) (path : String)
    (r : Option Bytes) : δ :=
  match r with
  | some data => StateAdapter.write_directory dest path data
  | none => dest

/-- `StateManager._handle_special_component`.  The guarded writes on the SSH
sub-items use `cond_write_file`/`cond_write_directory` above. -/
def StateManager.handle_special_component {σ δ : Type} [StateAdapter σ] [StateAdapter δ]
    (component : StateComponent) (source : σ) (dest : δ) : Bool × δ :=
  if component.special_handler = some "admin_shadow" then
    match dataOrNone (StateAdapter.read_file source component.path) with
    | some shadow_data =>
      let admin_lines :=
        (pySplitlines shadow_data).filter (fun line => strStartsWith line "admin:")
      match admin_lines with
      | first_line :: _ =>
          (true, StateAdapter.write_file dest "meta/shadow.admin" first_line none)
      | [] => (false, dest)
    | none => (false, dest)
  else if component.special_handler = some "ssh_config" then
    let base_path := component.path
    let dest := cond_write_file dest (base_path ++ "/sshd_config")
      (dataOrNone (StateAdapter.read_file source (base_path ++ "/sshd_config"))) none
    let dest := cond_write_directory dest (base_path ++ "/sshd_config.d")
      (dataOrNone (StateAdapter.read_directory source (base_path ++ "/sshd_config.d")))
    let dest :=
      (["rsa", "ecdsa", "ed25519"].foldl (fun dest key_type =>
        (["", ".pub"].foldl (fun dest suffix =>
          let key_path := base_path ++ "/ssh_host_" ++ key_type ++ "_key" ++ suffix
          cond_write_file dest key_path (dataOrNone (StateAdapter.read_file source key_path))
            (some (if suffix = "" then 0o600 else 0o644))) dest)) dest)
    (true, dest)
  else if component.special_handler = some "home_directories" then
    match dataOrNone (StateAdapter.read_directory source component.path) with
    | some home_data => (true, StateAdapter.write_directory dest component.path home_data)
    | none => (false, dest)
  else (false, dest)

/-- One iteration of the (identical) per-component loop bodies of
`backup_state` and `migrate_state`: try the special handler, fall through to
the standard file/directory copy, degrade `success` when a required component
yields no data. -/
def StateManager.process_component {σ δ : Type} [StateAdapter σ] [StateAdapter δ]
    (source : σ) (acc : Bool × δ) (component : StateComponent) : Bool × δ :=
  let handled :=
    if optStrTruthy component.special_handler then
      StateManager.handle_special_component component source acc.2
    else (false, acc.2)
  if handled.1 then (acc.1, handled.2)
  else
    let success := acc.1
    let dest := handled.2
    if component.component_type = "file" then
      match dataOrNone (StateAdapter.read_file source component.path) with
      | some data => (success, StateAdapter.write_file dest component.path data none)
      | none => if component.required then (false, dest) else (success, dest)
    else if component.component_type = "directory" then
      match dataOrNone (StateAdapter.read_directory source component.path) with
      | some data => (success, StateAdapter.write_directory dest component.path data)
      | none => if component.required then (false, dest) else (success, dest)
    else (success, dest)

/-- `StateManager.backup_state`: filesystem source, write-mode archive
destination, then an unconditional `save_backup`.  The returned option is the
archive file written (none under dry-run, when no file is touched). -/
def StateManager.backup_state (dry_run : Bool) (source_root : Filesystem) :
    Bool × Option SavedArchive :=
  let source : FilesystemAdapter := { fs := source_root, dry_run := dry_run }
  let backup := BackupAdapter.openWrite dry_run
  let result := SONIC_STATE_COMPONENTS.foldl (StateManager.process_component source)
    (true, backup)
  (result.1, BackupAdapter.save_backup result.2)

/-- One iteration of the `restore_state` loop: the `admin_shadow` component is
special-cased to a logged intent (reads only, `continue`, no mutation and no
effect on `success`); everything else uses the standard archive-to-filesystem
copy. -/
def StateManager.restore_component (backup : BackupAdapter)
    (acc : Bool × FilesystemAdapter) (component : StateComponent) :
    Bool × FilesystemAdapter :=
  if component.special_handler = some "admin_shadow" then acc
  else
    let success := acc.1
    let target := acc.2
    if component.component_type = "file" then
      match dataOrNone (BackupAdapter.read_file backup component.path) with
      | some data => (success, target.write_file component.path data none)
      | none => if component.required then (false, target) else (success, target)
    else if component.component_type = "directory" then
      match dataOrNone (BackupAdapter.read_directory backup component.path) with
      | some data => (success, target.write_directory component.path data)
      | none => if component.required then (false, target) else (success, target)
    else (success, target)

/-- `StateManager.restore_state`: read-mode archive source (an absent archive
file yields empty caches), filesystem target. -/
def StateManager.restore_state (dry_run : Bool) (archive_file : Option SavedArchive)
    (target_root : Filesystem) : Bool × Filesystem :=
  let backup := BackupAdapter.openRead archive_file dry_run
  let target : FilesystemAdapter := { fs := target_root, dry_run := dry_run }
  let result := SONIC_STATE_COMPONENTS.foldl (StateManager.restore_component backup)
    (true, target)
  (result.1, result.2.fs)

/-- `StateManager.migrate_state`: filesystem to filesystem, same loop body as
`backup_state`, no archive persisted. -/
def StateManager.migrate_state (dry_run : Bool) (source_root target_root : Filesystem) :
    Bool × Filesystem :=
  let source : FilesystemAdapter := { fs := source_root, dry_run := dry_run }
  let target : FilesystemAdapter := { fs := target_root, dry_run := dry_run }
  let result := SONIC_STATE_COMPONENTS.foldl (StateManager.process_component source)
    (true, target)
  (result.1, result.2.fs)

/-- `StateManager.validate_state`: existence checks only; a missing required
component flips the overall result, optional ones are informational. -/
def StateManager.validate_state (dry_run : Bool) (source_root : Filesystem) : Bool :=
  let source : FilesystemAdapter := { fs := source_root, dry_run := dry_run }
  SONIC_STATE_COMPONENTS.foldl (fun success component =>
    if component.component_type = "file" then
      if source.exists_ component.path then success
      else if component.required then false else success
    else if component.component_type = "directory" then
      if source.exists_ component.path then success
      else if component.required then false else success
    else success) true

/-- A path exists under a root (as file or directory): the adapter's
existence probe, phrased on the bare `Filesystem`. -/
def pathExists (fs : Filesystem) (path : String) : Bool :=
  (dictLookup fs.files path).isSome || (dictLookup fs.dirs path).isSome

/-- The boolean a special handler reports for a component against a filesystem
source, phrased on the bare `Filesystem` (the handler's success flag depends
only on what it reads from the source). -/
def handler_claims (fs : Filesystem) (c : StateComponent) : Bool :=
  if c.special_handler = some "admin_shadow" then
    match dataOrNone (dictLookup fs.files c.path) with
    | some shadow_data =>
        !((pySplitlines shadow_data).filter (fun line => strStartsWith line "admin:")).isEmpty
    | none => false
  else if c.special_handler = some "ssh_config" then true
  else if c.special_handler = some "home_directories" then
    (dataOrNone (dictLookup fs.dirs c.path)).isSome
  else false

/-- A component hits the `Required component ... not found` branch of the
backup/migrate loop against a filesystem source: it is required, no special
handler claimed it, and the standard read produced no (truthy) data. -/
def required_found_missing (fs : Filesystem) (c : StateComponent) : Bool :=
  c.required && !(optStrTruthy c.special_handler && handler_claims fs c) &&
    (if c.component_type = "file" then (dataOrNone (dictLookup fs.files c.path)).isNone
     else if c.component_type = "directory" then
       (dataOrNone (dictLookup fs.dirs c.path)).isNone
     else false)

/-- The entry map a read-mode `BackupAdapter` holds for a (possibly absent)
archive file. -/
def archiveData : Option SavedArchive → List (String × Bytes)
  | some a => a.data
  | none => []

/-- A component hits the `Required component ... not found in backup` branch
of the restore loop (the `admin_shadow` component is skipped and can never be
found missing there). -/
def archive_found_missing (data : List (String × Bytes)) (c : StateComponent) : Bool :=
  if c.special_handler = some "admin_shadow" then false
  else
    c.required &&
      (if c.component_type = "file" then (dataOrNone (dictLookup data c.path)).isNone
       else if c.component_type = "directory" then (dataOrNone (dictLookup data c.path)).isNone
       else false)

/-- The per-component pass condition of `validate_state`: for a file or
directory component, presence or optionality; vacuous for other kinds. -/
def validate_ok_spec (fs : Filesystem) (c : StateComponent) : Bool :=
  if c.component_type = "file" then (pathExists fs c.path || !c.required)
  else if c.component_type = "directory" then (pathExists fs c.path || !c.required)
  else true

/-- Every path any branch of the special handler or the standard copy can
write for a given component (an over-approximation used for frame lemmas). -/
def component_write_paths (c : StateComponent) : List String :=
  ["meta/shadow.admin", c.path, c.path ++ "/sshd_config", c.path ++ "/sshd_config.d"] ++
    (["rsa", "ecdsa", "ed25519"].flatMap (fun key_type =>
      ["", ".pub"].map (fun suffix => c.path ++ "/ssh_host_" ++ key_type ++ "_key" ++ suffix)))

/-- A root populated with every registry component (used as concrete input). -/
def populated_root : Filesystem :=
  { files :=
      [("/etc/sonic/config_db.json", "cfgdb"), ("/etc/fstab", "fstab-content"),
       ("/etc/shadow", "admin:hash:19000::::::\nroot:hash2:19000::::::"),
       ("/etc/ssh/sshd_config", "sshdcfg"),
       ("/etc/ssh/ssh_host_rsa_key", "rsapriv"), ("/etc/ssh/ssh_host_rsa_key.pub", "rsapub"),
       ("/etc/ssh/ssh_host_ecdsa_key", "ecpriv"), ("/etc/ssh/ssh_host_ecdsa_key.pub", "ecpub"),
       ("/etc/ssh/ssh_host_ed25519_key", "edpriv"),
       ("/etc/ssh/ssh_host_ed25519_key.pub", "edpub"),
       ("/etc/sonic/custom-fan/fancontrol", "fanctl")]
    modes := []
    dirs := [("/home", "home-tree-blob"), ("/etc/ssh", "ssh-tree-blob"),
             ("/etc/ssh/sshd_config.d", "dropin-blob")] }

/-- The empty root. -/
def empty_root : Filesystem := { files := [], modes := [], dirs := [] }

/-- A hand-built archive carrying truthy data at every path the restore loop
reads for a required component. -/
def populated_archive : SavedArchive :=
  { manifest_components :=
      ["/etc/sonic/config_db.json", "/home", "/etc/ssh", "/etc/fstab"]
    data :=
      [("/etc/sonic/config_db.json", "cfgdb"), ("/home", "home-tree-blob"),
       ("/etc/ssh", "ssh-tree-blob"), ("/etc/fstab", "fstab-content")] }


theorem dictLookup_insert {b : Type} (m : List (String × b)) (k : String) (v : b)
    (q : String) :
    dictLookup (dictInsert m k v) q = if k = q then some v else dictLookup m q := by
  induction m with
  | nil => rfl
  | cons hd tl ih =>
    obtain ⟨k', v'⟩ := hd
    by_cases h : k' = k
    · subst h
      simp only [dictInsert, if_pos rfl, dictLookup]
      by_cases hq : k' = q <;> simp [hq]
    · simp only [dictInsert, if_neg h, dictLookup, ih]
      by_cases hq : k = q
      · subst hq
        rw [if_neg h, if_pos rfl, if_pos rfl]
      · rw [if_neg hq, if_neg hq]

theorem SA_read_file_fs (a : FilesystemAdapter) (p : String) :
    (StateAdapter.read_file a p : Option Bytes) = dictLookup a.fs.files p := rfl

theorem SA_read_directory_fs (a : FilesystemAdapter) (p : String) :
    (StateAdapter.read_directory a p : Option Bytes) = dictLookup a.fs.dirs p := rfl

theorem handle_special_component_fst {d : Type} [StateAdapter d]
    (c : StateComponent) (source : FilesystemAdapter) (dest : d) :
    (StateManager.handle_special_component c source dest).1 = handler_claims source.fs c := by
  unfold StateManager.handle_special_component handler_claims
  simp only [SA_read_file_fs, SA_read_directory_fs]
  split_ifs with h1 h2 h3
  · cases hd : dataOrNone (dictLookup source.fs.files c.path) with
    | none => rfl
    | some s =>
      cases hl : (pySplitlines s).filter (fun line => strStartsWith line "admin:") with
      | nil => simp [hl]
      | cons x xs => simp [hl]
  · rfl
  · cases hd : dataOrNone (dictLookup source.fs.dirs c.path) with
    | none => rfl
    | some s => rfl
  · rfl


theorem process_component_fst {d : Type} [StateAdapter d] (source : FilesystemAdapter)
    (acc : Bool × d) (c : StateComponent) :
    (StateManager.process_component source acc c).1
      = (acc.1 && !required_found_missing source.fs c) := by
  unfold StateManager.process_component required_found_missing
  have hflag := handle_special_component_fst c source acc.2
  simp only [SA_read_file_fs, SA_read_directory_fs]
  by_cases hs : optStrTruthy c.special_handler
  · rw [if_pos hs]
    cases hh : StateManager.handle_special_component c source acc.2 with
    | mk flag dest' =>
      rw [hh] at hflag
      simp only at hflag
      subst hflag
      by_cases hcl : handler_claims source.fs c
      · simp [hcl, hs]
      · simp only [hcl, hs, Bool.and_false, true_and, Bool.not_false, Bool.and_true,
          Bool.false_eq_true, if_false]
        by_cases ht1 : c.component_type = "file"
        · simp only [ht1, if_true, if_pos rfl]
          cases hd : dataOrNone (dictLookup source.fs.files c.path) <;>
            by_cases hr : c.required <;> simp [hd, hr]
        · by_cases ht2 : c.component_type = "directory"
          · simp only [ht1, ht2, if_true, if_false, if_pos rfl, if_neg ht1]
            cases hd : dataOrNone (dictLookup source.fs.dirs c.path) <;>
              by_cases hr : c.required <;> simp [hd, hr]
          · simp [ht1, ht2]
  · rw [if_neg hs]
    simp only [Bool.false_eq_true, if_false, hs, Bool.false_and, Bool.not_false, Bool.and_true]
    by_cases ht1 : c.component_type = "file"
    · simp only [ht1, if_true, if_pos rfl]
      cases hd : dataOrNone (dictLookup source.fs.files c.path) <;>
        by_cases hr : c.required <;> simp [hd, hr]
    · by_cases ht2 : c.component_type = "directory"
      · simp only [ht1, ht2, if_true, if_false, if_pos rfl, if_neg ht1]
        cases hd : dataOrNone (dictLookup source.fs.dirs c.path) <;>
          by_cases hr : c.required <;> simp [hd, hr]
      · simp [ht1, ht2]

theorem restore_component_fst (backup : BackupAdapter) (acc : Bool × FilesystemAdapter)
    (c : StateComponent) :
    (StateManager.restore_component backup acc c).1
      = (acc.1 && !archive_found_missing backup._data c) := by
  unfold StateManager.restore_component archive_found_missing
  by_cases hadm : c.special_handler = some "admin_shadow"
  · simp [hadm]
  · simp only [hadm, if_false, Bool.false_eq_true]
    by_cases ht1 : c.component_type = "file"
    · simp only [ht1, if_true, if_pos rfl]
      unfold BackupAdapter.read_file
      cases hd : dataOrNone (dictLookup backup._data c.path) <;>
        by_cases hr : c.required <;> simp [hd, hr]
    · by_cases ht2 : c.component_type = "directory"
      · simp only [ht1, ht2, if_true, if_false, if_pos rfl, if_neg ht1]
        unfold BackupAdapter.read_directory
        cases hd : dataOrNone (dictLookup backup._data c.path) <;>
          by_cases hr : c.required <;> simp [hd, hr]
      · simp [ht1, ht2]

theorem foldl_fst_eq_all {d : Type} (step : (Bool × d) → StateComponent → Bool × d)
    (ok : StateComponent → Bool)
    (hstep : ∀ acc c, (step acc c).1 = (acc.1 && ok c)) :
    ∀ (l : List StateComponent) (acc : Bool × d),
      (l.foldl step acc).1 = (acc.1 && l.all ok) := by
  intro l
  induction l with
  | nil => intro acc; simp
  | cons c cs ih =>
    intro acc
    rw [List.foldl_cons, ih, hstep, List.all_cons, Bool.and_assoc]

theorem backup_success_char (dry_run : Bool) (source_root : Filesystem) :
    (StateManager.backup_state dry_run source_root).1
      = SONIC_STATE_COMPONENTS.all (fun c => !required_found_missing source_root c) := by
  unfold StateManager.backup_state
  rw [foldl_fst_eq_all (StateManager.process_component
        ({ fs := source_root, dry_run := dry_run } : FilesystemAdapter))
      (fun c => !required_found_missing source_root c)
      (fun acc c => process_component_fst _ acc c)]
  simp

theorem migrate_success_char (dry_run : Bool) (source_root target_root : Filesystem) :
    (StateManager.migrate_state dry_run source_root target_root).1
      = SONIC_STATE_COMPONENTS.all (fun c => !required_found_missing source_root c) := by
  unfold StateManager.migrate_state
  rw [foldl_fst_eq_all (StateManager.process_component
        ({ fs := source_root, dry_run := dry_run } : FilesystemAdapter))
      (fun c => !required_found_missing source_root c)
      (fun acc c => process_component_fst _ acc c)]
  simp

theorem restore_success_char (dry_run : Bool) (archive_file : Option SavedArchive)
    (target_root : Filesystem) :
    (StateManager.restore_state dry_run archive_file target_root).1
      = SONIC_STATE_COMPONENTS.all
          (fun c => !archive_found_missing (archiveData archive_file) c) := by
  unfold StateManager.restore_state
  have hdata : (BackupAdapter.openRead archive_file dry_run)._data = archiveData archive_file := by
    cases archive_file <;> rfl
  rw [foldl_fst_eq_all (StateManager.restore_component (BackupAdapter.openRead archive_file dry_run))
      (fun c => !archive_found_missing (archiveData archive_file) c)
      (fun acc c => by rw [restore_component_fst, hdata])]
  simp

theorem foldl_bool_eq_all (step : Bool → StateComponent → Bool) (ok : StateComponent → Bool)
    (hstep : ∀ s c, step s c = (s && ok c)) :
    ∀ (l : List StateComponent) (s : Bool), l.foldl step s = (s && l.all ok) := by
  intro l
  induction l with
  | nil => intro s; simp
  | cons c cs ih =>
    intro s
    rw [List.foldl_cons, ih, hstep, List.all_cons, Bool.and_assoc]

theorem validate_success_char (dry_run : Bool) (source_root : Filesystem) :
    StateManager.validate_state dry_run source_root
      = SONIC_STATE_COMPONENTS.all (validate_ok_spec source_root) := by
  unfold StateManager.validate_state
  rw [foldl_bool_eq_all _ (validate_ok_spec source_root)]
  · simp
  · intro s c
    unfold validate_ok_spec FilesystemAdapter.exists_ pathExists
    by_cases ht1 : c.component_type = "file"
    · simp only [ht1, if_true, if_pos rfl]
      by_cases he : ((dictLookup source_root.files c.path).isSome
          || (dictLookup source_root.dirs c.path).isSome) <;>
        by_cases hr : c.required <;> simp [he, hr]
    · by_cases ht2 : c.component_type = "directory"
      · simp only [ht1, ht2, if_true, if_false, if_pos rfl, if_neg ht1]
        by_cases he : ((dictLookup source_root.files c.path).isSome
            || (dictLookup source_root.dirs c.path).isSome) <;>
          by_cases hr : c.required <;> simp [he, hr]
      · simp [ht1, ht2]

theorem cond_write_file_pres {d : Type} [StateAdapter d] (P : d → Prop) (x : d)
    (p : String) (r : Option Bytes) (m : Option Nat)
    (hstep : ∀ (z : d) (data : Bytes), P z → P (StateAdapter.write_file z p data m))
    (hx : P x) : P (cond_write_file x p r m) := by
  cases r with
  | none => exact hx
  | some y => exact hstep x y hx

theorem cond_write_directory_pres {d : Type} [StateAdapter d] (P : d → Prop) (x : d)
    (p : String) (r : Option Bytes)
    (hstep : ∀ (z : d) (data : Bytes), P z → P (StateAdapter.write_directory z p data))
    (hx : P x) : P (cond_write_directory x p r) := by
  cases r with
  | none => exact hx
  | some y => exact hstep x y hx

theorem handle_special_component_pres {s d : Type} [StateAdapter s] [StateAdapter d]
    (P : d → Prop) (c : StateComponent) (source : s) (dest : d)
    (hwf : ∀ (x : d) (p : String) (data : Bytes) (m : Option Nat),
      p ∈ component_write_paths c → P x → P (StateAdapter.write_file x p data m))
    (hwd : ∀ (x : d) (p : String) (data : Bytes),
      p ∈ component_write_paths c → P x → P (StateAdapter.write_directory x p data))
    (h : P dest) : P (StateManager.handle_special_component c source dest).2 := by
  unfold StateManager.handle_special_component
  split_ifs with h1 h2 h3
  · cases hd : dataOrNone (StateAdapter.read_file source c.path) with
    | none => exact h
    | some shadow_data =>
      cases hfl : (pySplitlines shadow_data).filter (fun line => strStartsWith line "admin:") with
      | nil => simp only [hfl]; exact h
      | cons x xs =>
        simp only [hfl]
        refine hwf dest "meta/shadow.admin" x none ?_ h
        simp [component_write_paths]
  · simp only [List.foldl_cons, List.foldl_nil]
    repeat
      first
        | exact h
        | (refine cond_write_file_pres P _ _ _ _
            (fun z data hz => hwf _ _ _ _ (by simp [component_write_paths]) hz) ?_)
        | (refine cond_write_directory_pres P _ _ _
            (fun z data hz => hwd _ _ _ (by simp [component_write_paths]) hz) ?_)
  · cases hd : dataOrNone (StateAdapter.read_directory source c.path) with
    | none => exact h
    | some home_data =>
      refine hwd dest c.path home_data ?_ h
      simp [component_write_paths]
  · exact h

theorem process_component_pres {s d : Type} [StateAdapter s] [StateAdapter d]
    (P : d → Prop) (source : s) (acc : Bool × d) (c : StateComponent)
    (hwf : ∀ (x : d) (p : String) (data : Bytes) (m : Option Nat),
      p ∈ component_write_paths c → P x → P (StateAdapter.write_file x p data m))
    (hwd : ∀ (x : d) (p : String) (data : Bytes),
      p ∈ component_write_paths c → P x → P (StateAdapter.write_directory x p data))
    (h : P acc.2) : P (StateManager.process_component source acc c).2 := by
  unfold StateManager.process_component
  have hpres := handle_special_component_pres P c source acc.2 hwf hwd h
  by_cases hs : optStrTruthy c.special_handler
  · rw [if_pos hs]
    cases hh : StateManager.handle_special_component c source acc.2 with
    | mk flag dest' =>
      rw [hh] at hpres
      simp only at hpres
      cases flag with
      | true => exact hpres
      | false =>
        simp only [Bool.false_eq_true, if_false]
        by_cases ht1 : c.component_type = "file"
        · simp only [ht1, if_pos rfl]
          cases hr : dataOrNone (StateAdapter.read_file source c.path) with
          | none => by_cases hq : c.required <;> simp [hq] <;> exact hpres
          | some data =>
            refine hwf dest' c.path data none ?_ hpres
            simp [component_write_paths]
        · by_cases ht2 : c.component_type = "directory"
          · simp only [ht1, ht2, if_pos rfl, if_neg ht1]
            cases hr : dataOrNone (StateAdapter.read_directory source c.path) with
            | none => by_cases hq : c.required <;> simp [hq] <;> exact hpres
            | some data =>
              refine hwd dest' c.path data ?_ hpres
              simp [component_write_paths]
          · simp only [ht1, ht2, if_neg ht1, if_neg ht2]
            exact hpres
  · rw [if_neg hs]
    simp only [Bool.false_eq_true, if_false]
    by_cases ht1 : c.component_type = "file"
    · simp only [ht1, if_pos rfl]
      cases hr : dataOrNone (StateAdapter.read_file source c.path) with
      | none => by_cases hq : c.required <;> simp [hq] <;> exact h
      | some data =>
        refine hwf acc.2 c.path data none ?_ h
        simp [component_write_paths]
    · by_cases ht2 : c.component_type = "directory"
      · simp only [ht1, ht2, if_pos rfl, if_neg ht1]
        cases hr : dataOrNone (StateAdapter.read_directory source c.path) with
        | none => by_cases hq : c.required <;> simp [hq] <;> exact h
        | some data =>
          refine hwd acc.2 c.path data ?_ h
          simp [component_write_paths]
      · simp only [ht1, ht2, if_neg ht1, if_neg ht2]
        exact h

theorem foldl_process_pres {s d : Type} [StateAdapter s] [StateAdapter d]
    (P : d → Prop) (source : s) (l : List StateComponent)
    (hwf : ∀ c ∈ l, ∀ (x : d) (p : String) (data : Bytes) (m : Option Nat),
      p ∈ component_write_paths c → P x → P (StateAdapter.write_file x p data m))
    (hwd : ∀ c ∈ l, ∀ (x : d) (p : String) (data : Bytes),
      p ∈ component_write_paths c → P x → P (StateAdapter.write_directory x p data)) :
    ∀ (acc : Bool × d), P acc.2 →
      P ((l.foldl (StateManager.process_component source) acc).2) := by
  induction l with
  | nil => intro acc h; exact h
  | cons c cs ih =>
    intro acc h
    rw [List.foldl_cons]
    exact ih (fun c' hc' => hwf c' (List.mem_cons_of_mem _ hc'))
      (fun c' hc' => hwd c' (List.mem_cons_of_mem _ hc')) _
      (process_component_pres P source acc c
        (hwf c (List.mem_cons_self _ _)) (hwd c (List.mem_cons_self _ _)) h)

theorem restore_component_pres (P : FilesystemAdapter → Prop) (backup : BackupAdapter)
    (acc : Bool × FilesystemAdapter) (c : StateComponent)
    (hwf : ∀ (x : FilesystemAdapter) (data : Bytes),
      P x → P (x.write_file c.path data none))
    (hwd : ∀ (x : FilesystemAdapter) (data : Bytes),
      P x → P (x.write_directory c.path data))
    (h : P acc.2) : P (StateManager.restore_component backup acc c).2 := by
  unfold StateManager.restore_component
  by_cases hadm : c.special_handler = some "admin_shadow"
  · rw [if_pos hadm]; exact h
  · rw [if_neg hadm]
    by_cases ht1 : c.component_type = "file"
    · simp only [ht1, if_pos rfl]
      cases hr : dataOrNone (BackupAdapter.read_file backup c.path) with
      | none => by_cases hq : c.required <;> simp [hq] <;> exact h
      | some data => exact hwf acc.2 data h
    · by_cases ht2 : c.component_type = "directory"
      · simp only [ht1, ht2, if_pos rfl, if_neg ht1]
        cases hr : dataOrNone (BackupAdapter.read_directory backup c.path) with
        | none => by_cases hq : c.required <;> simp [hq] <;> exact h
        | some data => exact hwd acc.2 data h
      · simp only [ht1, ht2, if_neg ht1, if_neg ht2]
        exact h

theorem foldl_restore_pres (P : FilesystemAdapter → Prop) (backup : BackupAdapter)
    (l : List StateComponent)
    (hwf : ∀ c ∈ l, ∀ (x : FilesystemAdapter) (data : Bytes),
      P x → P (x.write_file c.path data none))
    (hwd : ∀ c ∈ l, ∀ (x : FilesystemAdapter) (data : Bytes),
      P x → P (x.write_directory c.path data)) :
    ∀ (acc : Bool × FilesystemAdapter), P acc.2 →
      P ((l.foldl (StateManager.restore_component backup) acc).2) := by
  induction l with
  | nil => intro acc h; exact h
  | cons c cs ih =>
    intro acc h
    rw [List.foldl_cons]
    exact ih (fun c' hc' => hwf c' (List.mem_cons_of_mem _ hc'))
      (fun c' hc' => hwd c' (List.mem_cons_of_mem _ hc')) _
      (restore_component_pres P backup acc c
        (hwf c (List.mem_cons_self _ _)) (hwd c (List.mem_cons_self _ _)) h)

theorem save_backup_dry (b : BackupAdapter) (h : b.dry_run = true) :
    b.save_backup = none := by
  unfold BackupAdapter.save_backup
  rw [h]
  rfl

theorem save_backup_not_dry (b : BackupAdapter) (h : b.dry_run = false) :
    b.save_backup
      = some { manifest_components := b._data.map Prod.fst, data := b._data } := by
  unfold BackupAdapter.save_backup
  rw [h]
  rfl

theorem SA_write_file_fs (a : FilesystemAdapter) (p : String) (data : Bytes)
    (m : Option Nat) :
    (StateAdapter.write_file a p data m : FilesystemAdapter) = a.write_file p data m := rfl

theorem SA_write_directory_fs (a : FilesystemAdapter) (p : String) (data : Bytes) :
    (StateAdapter.write_directory a p data : FilesystemAdapter) = a.write_directory p data :=
  rfl

theorem SA_write_file_backup (b : BackupAdapter) (p : String) (data : Bytes)
    (m : Option Nat) :
    (StateAdapter.write_file b p data m : BackupAdapter) = b.write_file p data m := rfl

theorem SA_write_directory_backup (b : BackupAdapter) (p : String) (data : Bytes) :
    (StateAdapter.write_directory b p data : BackupAdapter) = b.write_directory p data := rfl

/-- C1: on a source root populated with every registry component, backup
succeeds and captures the SSH daemon config under its own sub-path, but the
subsequent restore into an empty root returns failure and reproduces no SSH
bundle file at the target: the round trip is not content-preserving. -/
theorem claim_c1_roundtrip_breaks_for_ssh :
    (StateManager.backup_state false populated_root).1 = true
    ∧ dictLookup (archiveData (StateManager.backup_state false populated_root).2)
        "/etc/ssh/sshd_config" = some "sshdcfg"
    ∧ dictLookup populated_root.files "/etc/ssh/sshd_config" = some "sshdcfg"
    ∧ (StateManager.restore_state false (StateManager.backup_state false populated_root).2
        empty_root).1 = false
    ∧ dictLookup (StateManager.restore_state false
        (StateManager.backup_state false populated_root).2 empty_root).2.files
        "/etc/ssh/sshd_config" = none
    ∧ dictLookup (StateManager.restore_state false
        (StateManager.backup_state false populated_root).2 empty_root).2.files
        "/etc/ssh/ssh_host_rsa_key" = none := by
  refine ⟨by decide, by decide, by decide, by decide, by decide, by decide⟩

/-- C3: `backup_state` persists the archive unconditionally: even when a
required file (here `/etc/fstab`) is absent and the overall result is
failure, a (non-dry-run) run still produces an archive whose manifest lists
exactly the entries written. -/
theorem claim_c3_archive_persisted_on_failure (source_root : Filesystem)
    (hmissing : dictLookup source_root.files "/etc/fstab" = none) :
    (StateManager.backup_state false source_root).1 = false
    ∧ ∃ ar : SavedArchive, (StateManager.backup_state false source_root).2 = some ar
        ∧ ar.manifest_components = ar.data.map Prod.fst := by
  constructor
  · rw [backup_success_char]
    simp only [SONIC_STATE_COMPONENTS, List.all_cons, List.all_nil]
    have : required_found_missing source_root system_mounts_component = true := by
      simp [required_found_missing, system_mounts_component, hmissing, optStrTruthy,
        dataOrNone]
    simp [this]
  · have hdry : ((SONIC_STATE_COMPONENTS.foldl
        (StateManager.process_component
          ({ fs := source_root, dry_run := false } : FilesystemAdapter))
        (true, BackupAdapter.openWrite false)).2).dry_run = false := by
      refine foldl_process_pres (fun b : BackupAdapter => b.dry_run = false) _ _
        ?_ ?_ _ rfl
      · intro c _ x p data m _ hx
        simpa [SA_write_file_backup, BackupAdapter.write_file] using hx
      · intro c _ x p data _ hx
        simpa [SA_write_directory_backup, BackupAdapter.write_directory] using hx
    exact ⟨_, by unfold StateManager.backup_state; exact save_backup_not_dry _ hdry, rfl⟩

/-- C4: dry-run produces zero durable mutations — no archive file is written,
restore and migrate return their target root unchanged — while the reads and
dispatch still run, so each operation reports the same overall boolean as the
corresponding non-dry-run call. -/
theorem claim_c4_dry_run_invariant :
    (∀ source_root : Filesystem,
      (StateManager.backup_state true source_root).2 = none)
    ∧ (∀ (archive_file : Option SavedArchive) (target_root : Filesystem),
      (StateManager.restore_state true archive_file target_root).2 = target_root)
    ∧ (∀ source_root target_root : Filesystem,
      (StateManager.migrate_state true source_root target_root).2 = target_root)
    ∧ (∀ source_root : Filesystem,
      (StateManager.backup_state true source_root).1
        = (StateManager.backup_state false source_root).1)
    ∧ (∀ (archive_file : Option SavedArchive) (target_root : Filesystem),
      (StateManager.restore_state true archive_file target_root).1
        = (StateManager.restore_state false archive_file target_root).1)
    ∧ (∀ source_root target_root : Filesystem,
      (StateManager.migrate_state true source_root target_root).1
        = (StateManager.migrate_state false source_root target_root).1)
    ∧ (∀ source_root : Filesystem,
      StateManager.validate_state true source_root
        = StateManager.validate_state false source_root) := by
  refine ⟨?_, ?_, ?_, ?_, ?_, ?_, ?_⟩
  · intro source_root
    have hdry : ((SONIC_STATE_COMPONENTS.foldl
        (StateManager.process_component
          ({ fs := source_root, dry_run := true } : FilesystemAdapter))
        (true, BackupAdapter.openWrite true)).2).dry_run = true := by
      refine foldl_process_pres (fun b : BackupAdapter => b.dry_run = true) _ _ ?_ ?_ _ rfl
      · intro c _ x p data m _ hx
        simpa [SA_write_file_backup, BackupAdapter.write_file] using hx
      · intro c _ x p data _ hx
        simpa [SA_write_directory_backup, BackupAdapter.write_directory] using hx
    exact save_backup_dry _ hdry
  · intro archive_file target_root
    have hid : ((SONIC_STATE_COMPONENTS.foldl
        (StateManager.restore_component (BackupAdapter.openRead archive_file true))
        (true, ({ fs := target_root, dry_run := true } : FilesystemAdapter))).2)
          = ({ fs := target_root, dry_run := true } : FilesystemAdapter) := by
      refine foldl_restore_pres
        (fun t => t = ({ fs := target_root, dry_run := true } : FilesystemAdapter)) _ _
        ?_ ?_ _ rfl
      · intro c _ x data hx
        subst hx
        simp [FilesystemAdapter.write_file]
      · intro c _ x data hx
        subst hx
        simp [FilesystemAdapter.write_directory]
    exact congrArg (fun t => t.fs) hid
  · intro source_root target_root
    have hid : ((SONIC_STATE_COMPONENTS.foldl
        (StateManager.process_component
          ({ fs := source_root, dry_run := true } : FilesystemAdapter))
        (true, ({ fs := target_root, dry_run := true } : FilesystemAdapter))).2)
          = ({ fs := target_root, dry_run := true } : FilesystemAdapter) := by
      refine foldl_process_pres
        (fun t : FilesystemAdapter =>
          t = ({ fs := target_root, dry_run := true } : FilesystemAdapter)) _ _ ?_ ?_ _ rfl
      · intro c _ x p data m _ hx
        subst hx
        simp [SA_write_file_fs, FilesystemAdapter.write_file]
      · intro c _ x p data _ hx
        subst hx
        simp [SA_write_directory_fs, FilesystemAdapter.write_directory]
    exact congrArg (fun t => t.fs) hid
  · intro source_root
    rw [backup_success_char, backup_success_char]
  · intro archive_file target_root
    rw [restore_success_char, restore_success_char]
  · intro source_root target_root
    rw [migrate_success_char, migrate_success_char]
  · intro source_root
    rw [validate_success_char, validate_success_char]

/-- C2: each operation returns `true` exactly when no required registry
component hit its `Required component ... not found` branch during that run
(the characterizations), and in particular each returns `false` on a fully
empty source (every required component absent) and `true` on a fully
populated one (every required component present with readable, truthy
data). -/
theorem claim_c2_success_iff_nothing_required_missing :
    (∀ (dry_run : Bool) (source_root : Filesystem),
      (StateManager.backup_state dry_run source_root).1
        = SONIC_STATE_COMPONENTS.all (fun c => !required_found_missing source_root c))
    ∧ (∀ (dry_run : Bool) (archive_file : Option SavedArchive) (target_root : Filesystem),
      (StateManager.restore_state dry_run archive_file target_root).1
        = SONIC_STATE_COMPONENTS.all
            (fun c => !archive_found_missing (archiveData archive_file) c))
    ∧ (∀ (dry_run : Bool) (source_root target_root : Filesystem),
      (StateManager.migrate_state dry_run source_root target_root).1
        = SONIC_STATE_COMPONENTS.all (fun c => !required_found_missing source_root c))
    ∧ (∀ (dry_run : Bool) (source_root : Filesystem),
      StateManager.validate_state dry_run source_root
        = SONIC_STATE_COMPONENTS.all (validate_ok_spec source_root))
    ∧ (StateManager.backup_state false empty_root).1 = false
    ∧ (StateManager.restore_state false none empty_root).1 = false
    ∧ (StateManager.migrate_state false empty_root empty_root).1 = false
    ∧ StateManager.validate_state false empty_root = false
    ∧ (StateManager.backup_state false populated_root).1 = true
    ∧ (StateManager.restore_state false (some populated_archive) empty_root).1 = true
    ∧ (StateManager.migrate_state false populated_root empty_root).1 = true
    ∧ StateManager.validate_state false populated_root = true := by
  refine ⟨backup_success_char, restore_success_char, migrate_success_char,
    validate_success_char, by decide, by decide, by decide, by decide,
    by decide, by decide, by decide, by decide⟩

/-- C6: `validate_state` is exactly the conjunction, over the registry, of
"required implies present": it is false whenever some required component's
path is absent, true when all required paths are present, and entirely
insensitive to optional components. -/
theorem claim_c6_validate_checks_required_existence :
    ∀ (dry_run : Bool) (source_root : Filesystem),
      StateManager.validate_state dry_run source_root
        = SONIC_STATE_COMPONENTS.all
            (fun c => !c.required || pathExists source_root c.path) := by
  intro dry_run source_root
  rw [validate_success_char]
  simp only [SONIC_STATE_COMPONENTS, List.all_cons, List.all_nil, validate_ok_spec,
    sonic_config_component, user_data_component, ssh_infrastructure_component,
    system_mounts_component, fan_control_component, admin_auth_component]
  simp

/-- C8: opening the archive adapter in read mode on a nonexistent archive
file yields empty caches — every probe is false, every read absent — and a
restore from a nonexistent archive returns false (required components are
missing) instead of failing. -/
theorem claim_c8_missing_archive_reads_as_empty :
    (∀ dry_run : Bool, (BackupAdapter.openRead none dry_run)._data = []
      ∧ (BackupAdapter.openRead none dry_run)._metadata = [])
    ∧ (∀ (dry_run : Bool) (p : String),
      (BackupAdapter.openRead none dry_run).exists_ p = false)
    ∧ (∀ (dry_run : Bool) (p : String),
      (BackupAdapter.openRead none dry_run).read_file p = none)
    ∧ (∀ (dry_run : Bool) (p : String),
      (BackupAdapter.openRead none dry_run).read_directory p = none)
    ∧ (∀ (dry_run : Bool) (target_root : Filesystem),
      (StateManager.restore_state dry_run none target_root).1 = false) := by
  refine ⟨fun _ => ⟨rfl, rfl⟩, fun _ _ => rfl, fun _ _ => rfl, fun _ _ => rfl, ?_⟩
  intro dry_run target_root
  rw [restore_success_char]
  decide

/-- C10: the archive adapter's `write_file` ignores the permission-mode
argument entirely and stores only the raw bytes keyed by path; a permission
mode is recorded only by the filesystem adapter's `write_file`. -/
theorem claim_c10_archive_write_ignores_mode :
    (∀ (b : BackupAdapter) (p : String) (data : Bytes) (m : Option Nat),
      b.write_file p data m = b.write_file p data none)
    ∧ (∀ (b : BackupAdapter) (p : String) (data : Bytes) (m : Option Nat),
      (b.write_file p data m)._data = dictInsert b._data p data)
    ∧ (∀ (fs : Filesystem) (p : String) (data : Bytes) (m : Nat),
      dictLookup ((FilesystemAdapter.mk fs false).write_file p data (some m)).fs.modes p
        = some m) := by
  refine ⟨fun _ _ _ _ => rfl, fun _ _ _ _ => rfl, ?_⟩
  intro fs p data m
  show dictLookup (dictInsert fs.modes p m) p = some m
  rw [dictLookup_insert]
  simp

theorem modes_cond_write_file_ne (x : FilesystemAdapter) (p : String) (r : Option Bytes)
    (m : Option Nat) (q : String) (h : ¬p = q) :
    dictLookup (cond_write_file x p r m).fs.modes q = dictLookup x.fs.modes q := by
  cases r with
  | none => rfl
  | some data =>
    show dictLookup (StateAdapter.write_file x p data m).fs.modes q = _
    rw [SA_write_file_fs]
    unfold FilesystemAdapter.write_file
    by_cases hd : x.dry_run
    · rw [if_pos hd]
    · rw [if_neg hd]
      cases m with
      | none => rfl
      | some mo =>
        show dictLookup (dictInsert x.fs.modes p mo) q = _
        rw [dictLookup_insert, if_neg h]

theorem modes_cond_write_directory (x : FilesystemAdapter) (p : String) (r : Option Bytes)
    (q : String) :
    dictLookup (cond_write_directory x p r).fs.modes q = dictLookup x.fs.modes q := by
  cases r with
  | none => rfl
  | some data =>
    show dictLookup (StateAdapter.write_directory x p data).fs.modes q = _
    rw [SA_write_directory_fs]
    unfold FilesystemAdapter.write_directory
    by_cases hd : x.dry_run
    · rw [if_pos hd]
    · rw [if_neg hd]

theorem modes_cond_write_file_hit (x : FilesystemAdapter) (p : String) (data : Bytes)
    (mo : Nat) (hd : x.dry_run = false) :
    dictLookup (cond_write_file x p (some data) (some mo)).fs.modes p = some mo := by
  show dictLookup (StateAdapter.write_file x p data (some mo)).fs.modes p = some mo
  rw [SA_write_file_fs]
  unfold FilesystemAdapter.write_file
  rw [hd]
  show dictLookup (dictInsert x.fs.modes p mo) p = some mo
  rw [dictLookup_insert, if_pos rfl]

theorem dry_cond_write_file (x : FilesystemAdapter) (p : String) (r : Option Bytes)
    (m : Option Nat) : (cond_write_file x p r m).dry_run = x.dry_run := by
  cases r with
  | none => rfl
  | some data =>
    show (StateAdapter.write_file x p data m).dry_run = x.dry_run
    rw [SA_write_file_fs]
    unfold FilesystemAdapter.write_file
    by_cases hd : x.dry_run
    · rw [if_pos hd]
    · rw [if_neg hd]

theorem dry_cond_write_directory (x : FilesystemAdapter) (p : String) (r : Option Bytes) :
    (cond_write_directory x p r).dry_run = x.dry_run := by
  cases r with
  | none => rfl
  | some data =>
    show (StateAdapter.write_directory x p data).dry_run = x.dry_run
    rw [SA_write_directory_fs]
    unfold FilesystemAdapter.write_directory
    by_cases hd : x.dry_run
    · rw [if_pos hd]
    · rw [if_neg hd]

theorem ssh_handler_unfolded {d : Type} [StateAdapter d] (source : FilesystemAdapter)
    (dest : d) :
    StateManager.handle_special_component ssh_infrastructure_component source dest
      = (true,
          cond_write_file (cond_write_file (cond_write_file (cond_write_file (cond_write_file
            (cond_write_file (cond_write_directory (cond_write_file dest
              "/etc/ssh/sshd_config"
              (dataOrNone (dictLookup source.fs.files "/etc/ssh/sshd_config")) none)
              "/etc/ssh/sshd_config.d"
              (dataOrNone (dictLookup source.fs.dirs "/etc/ssh/sshd_config.d")))
            "/etc/ssh/ssh_host_rsa_key"
            (dataOrNone (dictLookup source.fs.files "/etc/ssh/ssh_host_rsa_key")) (some 0o600))
            "/etc/ssh/ssh_host_rsa_key.pub"
            (dataOrNone (dictLookup source.fs.files "/etc/ssh/ssh_host_rsa_key.pub"))
            (some 0o644))
            "/etc/ssh/ssh_host_ecdsa_key"
            (dataOrNone (dictLookup source.fs.files "/etc/ssh/ssh_host_ecdsa_key"))
            (some 0o600))
            "/etc/ssh/ssh_host_ecdsa_key.pub"
            (dataOrNone (dictLookup source.fs.files "/etc/ssh/ssh_host_ecdsa_key.pub"))
            (some 0o644))
            "/etc/ssh/ssh_host_ed25519_key"
            (dataOrNone (dictLookup source.fs.files "/etc/ssh/ssh_host_ed25519_key"))
            (some 0o600))
            "/etc/ssh/ssh_host_ed25519_key.pub"
            (dataOrNone (dictLookup source.fs.files "/etc/ssh/ssh_host_ed25519_key.pub"))
            (some 0o644)) := by
  unfold StateManager.handle_special_component
  rw [if_neg (by decide :
      ¬ssh_infrastructure_component.special_handler = some "admin_shadow")]
  rw [if_pos (by decide :
      ssh_infrastructure_component.special_handler = some "ssh_config")]
  simp only [List.foldl_cons, List.foldl_nil, SA_read_file_fs, SA_read_directory_fs,
    show ssh_infrastructure_component.path = "/etc/ssh" from rfl,
    show ("/etc/ssh" ++ "/sshd_config" : String) = "/etc/ssh/sshd_config" from by decide,
    show ("/etc/ssh" ++ "/sshd_config.d" : String) = "/etc/ssh/sshd_config.d" from by decide,
    show ("/etc/ssh" ++ "/ssh_host_" ++ "rsa" ++ "_key" ++ "" : String)
      = "/etc/ssh/ssh_host_rsa_key" from by decide,
    show ("/etc/ssh" ++ "/ssh_host_" ++ "rsa" ++ "_key" ++ ".pub" : String)
      = "/etc/ssh/ssh_host_rsa_key.pub" from by decide,
    show ("/etc/ssh" ++ "/ssh_host_" ++ "ecdsa" ++ "_key" ++ "" : String)
      = "/etc/ssh/ssh_host_ecdsa_key" from by decide,
    show ("/etc/ssh" ++ "/ssh_host_" ++ "ecdsa" ++ "_key" ++ ".pub" : String)
      = "/etc/ssh/ssh_host_ecdsa_key.pub" from by decide,
    show ("/etc/ssh" ++ "/ssh_host_" ++ "ed25519" ++ "_key" ++ "" : String)
      = "/etc/ssh/ssh_host_ed25519_key" from by decide,
    show ("/etc/ssh" ++ "/ssh_host_" ++ "ed25519" ++ "_key" ++ ".pub" : String)
      = "/etc/ssh/ssh_host_ed25519_key.pub" from by decide,
    show (if True then (384 : Nat) else 420) = 384 from rfl,
    show (if (".pub" : String) = "" then (384 : Nat) else 420) = 420 from by decide]

/-- C7: the SSH bundle handler always reports handled regardless of which
sub-items exist (shown against both destination adapter kinds), and on a
(non-dry-run) filesystem destination every host key present at the source is
written with its permission forced: private key `0o600`, public key
`0o644`. -/
theorem claim_c7_ssh_handler_permissions (source : FilesystemAdapter) (b : BackupAdapter)
    (t : FilesystemAdapter) (target_fs : Filesystem) :
    (StateManager.handle_special_component ssh_infrastructure_component source b).1 = true
    ∧ (StateManager.handle_special_component ssh_infrastructure_component source t).1 = true
    ∧ (∀ kt ∈ (["rsa", "ecdsa", "ed25519"] : List String), ∀ d : Bytes,
      (dataOrNone (dictLookup source.fs.files ("/etc/ssh/ssh_host_" ++ kt ++ "_key"))
          = some d →
        dictLookup (StateManager.handle_special_component ssh_infrastructure_component
            source (FilesystemAdapter.mk target_fs false)).2.fs.modes
          ("/etc/ssh/ssh_host_" ++ kt ++ "_key") = some 0o600)
      ∧ (dataOrNone (dictLookup source.fs.files ("/etc/ssh/ssh_host_" ++ kt ++ "_key.pub"))
          = some d →
        dictLookup (StateManager.handle_special_component ssh_infrastructure_component
            source (FilesystemAdapter.mk target_fs false)).2.fs.modes
          ("/etc/ssh/ssh_host_" ++ kt ++ "_key.pub") = some 0o644)) := by
  refine ⟨by rw [ssh_handler_unfolded], by rw [ssh_handler_unfolded], ?_⟩
  intro kt hkt d
  fin_cases hkt
  · constructor
    · intro hd
      rw [show ("/etc/ssh/ssh_host_" ++ "rsa" ++ "_key" : String)
          = "/etc/ssh/ssh_host_rsa_key" from by decide] at hd ⊢
      rw [ssh_handler_unfolded]
      rw [modes_cond_write_file_ne _ _ _ _ _ (by decide)]
      rw [modes_cond_write_file_ne _ _ _ _ _ (by decide)]
      rw [modes_cond_write_file_ne _ _ _ _ _ (by decide)]
      rw [modes_cond_write_file_ne _ _ _ _ _ (by decide)]
      rw [modes_cond_write_file_ne _ _ _ _ _ (by decide)]
      rw [hd]
      simp only [modes_cond_write_file_hit, dry_cond_write_file, dry_cond_write_directory]
    · intro hd
      rw [show ("/etc/ssh/ssh_host_" ++ "rsa" ++ "_key.pub" : String)
          = "/etc/ssh/ssh_host_rsa_key.pub" from by decide] at hd ⊢
      rw [ssh_handler_unfolded]
      rw [modes_cond_write_file_ne _ _ _ _ _ (by decide)]
      rw [modes_cond_write_file_ne _ _ _ _ _ (by decide)]
      rw [modes_cond_write_file_ne _ _ _ _ _ (by decide)]
      rw [modes_cond_write_file_ne _ _ _ _ _ (by decide)]
      rw [hd]
      simp only [modes_cond_write_file_hit, dry_cond_write_file, dry_cond_write_directory]
  · constructor
    · intro hd
      rw [show ("/etc/ssh/ssh_host_" ++ "ecdsa" ++ "_key" : String)
          = "/etc/ssh/ssh_host_ecdsa_key" from by decide] at hd ⊢
      rw [ssh_handler_unfolded]
      rw [modes_cond_write_file_ne _ _ _ _ _ (by decide)]
      rw [modes_cond_write_file_ne _ _ _ _ _ (by decide)]
      rw [modes_cond_write_file_ne _ _ _ _ _ (by decide)]
      rw [hd]
      simp only [modes_cond_write_file_hit, dry_cond_write_file, dry_cond_write_directory]
    · intro hd
      rw [show ("/etc/ssh/ssh_host_" ++ "ecdsa" ++ "_key.pub" : String)
          = "/etc/ssh/ssh_host_ecdsa_key.pub" from by decide] at hd ⊢
      rw [ssh_handler_unfolded]
      rw [modes_cond_write_file_ne _ _ _ _ _ (by decide)]
      rw [modes_cond_write_file_ne _ _ _ _ _ (by decide)]
      rw [hd]
      simp only [modes_cond_write_file_hit, dry_cond_write_file, dry_cond_write_directory]
  · constructor
    · intro hd
      rw [show ("/etc/ssh/ssh_host_" ++ "ed25519" ++ "_key" : String)
          = "/etc/ssh/ssh_host_ed25519_key" from by decide] at hd ⊢
      rw [ssh_handler_unfolded]
      rw [modes_cond_write_file_ne _ _ _ _ _ (by decide)]
      rw [hd]
      simp only [modes_cond_write_file_hit, dry_cond_write_file, dry_cond_write_directory]
    · intro hd
      rw [show ("/etc/ssh/ssh_host_" ++ "ed25519" ++ "_key.pub" : String)
          = "/etc/ssh/ssh_host_ed25519_key.pub" from by decide] at hd ⊢
      rw [ssh_handler_unfolded]
      rw [hd]
      simp only [modes_cond_write_file_hit, dry_cond_write_file, dry_cond_write_directory]

/-- C5: the admin-credential handler writes exactly the one matching shadow
line to `meta/shadow.admin` and reports handled when a line with the `admin:`
prefix exists; with no matching line, or an absent (or empty, hence falsy)
source file, it writes nothing and reports not handled. -/
theorem claim_c5_admin_shadow_extraction {d : Type} [StateAdapter d]
    (source : FilesystemAdapter) (dest : d) :
    (∀ (content : Bytes) (admin_line : String),
      dictLookup source.fs.files "/etc/shadow" = some content →
      (pySplitlines content).filter (fun line => strStartsWith line "admin:")
        = [admin_line] →
      StateManager.handle_special_component admin_auth_component source dest
        = (true, StateAdapter.write_file dest "meta/shadow.admin" admin_line none))
    ∧ (∀ content : Bytes,
      dictLookup source.fs.files "/etc/shadow" = some content →
      (pySplitlines content).filter (fun line => strStartsWith line "admin:") = [] →
      StateManager.handle_special_component admin_auth_component source dest
        = (false, dest))
    ∧ (dictLookup source.fs.files "/etc/shadow" = none →
      StateManager.handle_special_component admin_auth_component source dest
        = (false, dest)) := by
  refine ⟨?_, ?_, ?_⟩
  · intro content admin_line hread hfilter
    unfold StateManager.handle_special_component
    rw [if_pos (by decide :
        admin_auth_component.special_handler = some "admin_shadow")]
    simp only [SA_read_file_fs, show admin_auth_component.path = "/etc/shadow" from rfl,
      hread]
    by_cases hc : content = ""
    · subst hc
      simp [pySplitlines, pySplitlinesAux] at hfilter
    · simp only [dataOrNone, hc, if_false, hfilter]
  · intro content hread hfilter
    unfold StateManager.handle_special_component
    rw [if_pos (by decide :
        admin_auth_component.special_handler = some "admin_shadow")]
    simp only [SA_read_file_fs, show admin_auth_component.path = "/etc/shadow" from rfl,
      hread]
    by_cases hc : content = ""
    · subst hc
      simp [dataOrNone]
    · simp only [dataOrNone, hc, if_false, hfilter]
  · intro hread
    unfold StateManager.handle_special_component
    rw [if_pos (by decide :
        admin_auth_component.special_handler = some "admin_shadow")]
    simp only [SA_read_file_fs, show admin_auth_component.path = "/etc/shadow" from rfl,
      hread]
    rfl

theorem backup_state_archive (dry_run : Bool) (source_root : Filesystem) :
    (StateManager.backup_state dry_run source_root).2
      = BackupAdapter.save_backup ((SONIC_STATE_COMPONENTS.foldl
          (StateManager.process_component
            ({ fs := source_root, dry_run := dry_run } : FilesystemAdapter))
          (true, BackupAdapter.openWrite dry_run)).2) := rfl

theorem restore_state_target (dry_run : Bool) (archive_file : Option SavedArchive)
    (target_root : Filesystem) :
    (StateManager.restore_state dry_run archive_file target_root).2
      = ((SONIC_STATE_COMPONENTS.foldl
          (StateManager.restore_component (BackupAdapter.openRead archive_file dry_run))
          (true, ({ fs := target_root, dry_run := dry_run } : FilesystemAdapter))).2).fs := rfl

theorem migrate_state_target (dry_run : Bool) (source_root target_root : Filesystem) :
    (StateManager.migrate_state dry_run source_root target_root).2
      = ((SONIC_STATE_COMPONENTS.foldl
          (StateManager.process_component
            ({ fs := source_root, dry_run := dry_run } : FilesystemAdapter))
          (true, ({ fs := target_root, dry_run := dry_run } : FilesystemAdapter))).2).fs := rfl

/-- C9: a required file component whose source data exists but is empty is
handled exactly like a missing one by backup, restore and migrate (byte
truthiness): the run reports failure and writes nothing for that component
(shown for `sonic_config`, whose path no other component ever writes). -/
theorem claim_c9_empty_file_treated_as_missing :
    (∀ source_root : Filesystem,
      dictLookup source_root.files "/etc/sonic/config_db.json" = some "" →
      (StateManager.backup_state false source_root).1 = false
      ∧ dictLookup (archiveData (StateManager.backup_state false source_root).2)
          "/etc/sonic/config_db.json" = none)
    ∧ (∀ (ar : SavedArchive) (target_root : Filesystem),
      dictLookup ar.data "/etc/sonic/config_db.json" = some "" →
      (StateManager.restore_state false (some ar) target_root).1 = false
      ∧ dictLookup (StateManager.restore_state false (some ar) target_root).2.files
          "/etc/sonic/config_db.json"
        = dictLookup target_root.files "/etc/sonic/config_db.json")
    ∧ (∀ source_root target_root : Filesystem,
      dictLookup source_root.files "/etc/sonic/config_db.json" = some "" →
      (StateManager.migrate_state false source_root target_root).1 = false
      ∧ dictLookup (StateManager.migrate_state false source_root target_root).2.files
          "/etc/sonic/config_db.json"
        = dictLookup target_root.files "/etc/sonic/config_db.json") := by
  refine ⟨?_, ?_, ?_⟩
  · intro source_root hcfg
    constructor
    · rw [backup_success_char]
      have hmiss : required_found_missing source_root sonic_config_component = true := by
        simp [required_found_missing, sonic_config_component, optStrTruthy, hcfg, dataOrNone]
      simp [SONIC_STATE_COMPONENTS, hmiss]
    · have hdry : ((SONIC_STATE_COMPONENTS.foldl
          (StateManager.process_component
            ({ fs := source_root, dry_run := false } : FilesystemAdapter))
          (true, BackupAdapter.openWrite false)).2).dry_run = false := by
        refine foldl_process_pres (fun b : BackupAdapter => b.dry_run = false) _ _ ?_ ?_ _ rfl
        · intro c _ x p data m _ hx
          simpa [SA_write_file_backup, BackupAdapter.write_file] using hx
        · intro c _ x p data _ hx
          simpa [SA_write_directory_backup, BackupAdapter.write_directory] using hx
      rw [backup_state_archive, save_backup_not_dry _ hdry]
      show dictLookup ((SONIC_STATE_COMPONENTS.foldl
          (StateManager.process_component
            ({ fs := source_root, dry_run := false } : FilesystemAdapter))
          (true, BackupAdapter.openWrite false)).2)._data "/etc/sonic/config_db.json" = none
      rw [show SONIC_STATE_COMPONENTS
          = sonic_config_component :: [user_data_component, ssh_infrastructure_component,
            system_mounts_component, fan_control_component, admin_auth_component] from rfl,
        List.foldl_cons]
      have h1 : StateManager.process_component
          ({ fs := source_root, dry_run := false } : FilesystemAdapter)
          (true, BackupAdapter.openWrite false) sonic_config_component
          = (false, BackupAdapter.openWrite false) := by
        unfold StateManager.process_component
        simp [sonic_config_component, optStrTruthy, SA_read_file_fs, dataOrNone, hcfg]
      rw [h1]
      have hne : ∀ c ∈ [user_data_component, ssh_infrastructure_component,
          system_mounts_component, fan_control_component, admin_auth_component],
          ∀ p ∈ component_write_paths c, ¬(p = "/etc/sonic/config_db.json") := by decide
      refine foldl_process_pres
        (fun b : BackupAdapter =>
          dictLookup b._data "/etc/sonic/config_db.json" = none) _ _ ?_ ?_ _ rfl
      · intro c hc x p data m hp hx
        rw [SA_write_file_backup]
        show dictLookup (dictInsert x._data p data) "/etc/sonic/config_db.json" = none
        rw [dictLookup_insert, if_neg (hne c hc p hp)]
        exact hx
      · intro c hc x p data hp hx
        rw [SA_write_directory_backup]
        show dictLookup (dictInsert x._data p data) "/etc/sonic/config_db.json" = none
        rw [dictLookup_insert, if_neg (hne c hc p hp)]
        exact hx
  · intro ar target_root har
    constructor
    · rw [restore_success_char]
      have hmiss : archive_found_missing (archiveData (some ar)) sonic_config_component
          = true := by
        simp [archive_found_missing, sonic_config_component, archiveData, har, dataOrNone]
      simp [SONIC_STATE_COMPONENTS, hmiss]
    · rw [restore_state_target]
      rw [show SONIC_STATE_COMPONENTS
          = sonic_config_component :: [user_data_component, ssh_infrastructure_component,
            system_mounts_component, fan_control_component, admin_auth_component] from rfl,
        List.foldl_cons]
      have h1 : StateManager.restore_component (BackupAdapter.openRead (some ar) false)
          (true, ({ fs := target_root, dry_run := false } : FilesystemAdapter))
          sonic_config_component
          = (false, ({ fs := target_root, dry_run := false } : FilesystemAdapter)) := by
        unfold StateManager.restore_component
        simp [sonic_config_component, BackupAdapter.openRead, BackupAdapter.read_file,
          dataOrNone, har]
      rw [h1]
      have hne : ∀ c ∈ [user_data_component, ssh_infrastructure_component,
          system_mounts_component, fan_control_component, admin_auth_component],
          ¬(c.path = "/etc/sonic/config_db.json") := by decide
      refine foldl_restore_pres
        (fun t => dictLookup t.fs.files "/etc/sonic/config_db.json"
          = dictLookup target_root.files "/etc/sonic/config_db.json") _ _ ?_ ?_ _ rfl
      · intro c hc x data hx
        unfold FilesystemAdapter.write_file
        by_cases hdry : x.dry_run
        · rw [if_pos hdry]; exact hx
        · rw [if_neg hdry]
          show dictLookup (dictInsert x.fs.files c.path data) "/etc/sonic/config_db.json" = _
          rw [dictLookup_insert, if_neg (hne c hc)]
          exact hx
      · intro c hc x data hx
        unfold FilesystemAdapter.write_directory
        by_cases hdry : x.dry_run
        · rw [if_pos hdry]; exact hx
        · rw [if_neg hdry]; exact hx
  · intro source_root target_root hcfg
    constructor
    · rw [migrate_success_char]
      have hmiss : required_found_missing source_root sonic_config_component = true := by
        simp [required_found_missing, sonic_config_component, optStrTruthy, hcfg, dataOrNone]
      simp [SONIC_STATE_COMPONENTS, hmiss]
    · rw [migrate_state_target]
      rw [show SONIC_STATE_COMPONENTS
          = sonic_config_component :: [user_data_component, ssh_infrastructure_component,
            system_mounts_component, fan_control_component, admin_auth_component] from rfl,
        List.foldl_cons]
      have h1 : StateManager.process_component
          ({ fs := source_root, dry_run := false } : FilesystemAdapter)
          (true, ({ fs := target_root, dry_run := false } : FilesystemAdapter))
          sonic_config_component
          = (false, ({ fs := target_root, dry_run := false } : FilesystemAdapter)) := by
        unfold StateManager.process_component
        simp [sonic_config_component, optStrTruthy, SA_read_file_fs, dataOrNone, hcfg]
      rw [h1]
      have hne : ∀ c ∈ [user_data_component, ssh_infrastructure_component,
          system_mounts_component, fan_control_component, admin_auth_component],
          ∀ p ∈ component_write_paths c, ¬(p = "/etc/sonic/config_db.json") := by decide
      refine foldl_process_pres
        (fun t : FilesystemAdapter => dictLookup t.fs.files "/etc/sonic/config_db.json"
          = dictLookup target_root.files "/etc/sonic/config_db.json") _ _ ?_ ?_ _ rfl
      · intro c hc x p data m hp hx
        rw [SA_write_file_fs]
        unfold FilesystemAdapter.write_file
        by_cases hdry : x.dry_run
        · rw [if_pos hdry]; exact hx
        · rw [if_neg hdry]
          show dictLookup (dictInsert x.fs.files p data) "/etc/sonic/config_db.json" = _
          rw [dictLookup_insert, if_neg (hne c hc p hp)]
          exact hx
      · intro c hc x p data hp hx
        rw [SA_write_directory_fs]
        unfold FilesystemAdapter.write_directory
        by_cases hdry : x.dry_run
        · rw [if_pos hdry]; exact hx
        · rw [if_neg hdry]; exact hx

/-- Witness for C3 at the empty root. -/
theorem claim_c3_witness :
    (StateManager.backup_state false empty_root).1 = false
    ∧ ∃ ar : SavedArchive, (StateManager.backup_state false empty_root).2 = some ar
        ∧ ar.manifest_components = ar.data.map Prod.fst :=
  claim_c3_archive_persisted_on_failure empty_root (by decide)

/-- Witness for C5 on a three-line shadow file with one admin line. -/
theorem claim_c5_witness :
    StateManager.handle_special_component admin_auth_component
      (FilesystemAdapter.mk ⟨[("/etc/shadow", "root:a:1\nadmin:b:2\nuser:c:3")], [], []⟩ false)
      (BackupAdapter.openWrite false)
      = (true, StateAdapter.write_file (BackupAdapter.openWrite false) "meta/shadow.admin"
          "admin:b:2" none) :=
  (claim_c5_admin_shadow_extraction
      (FilesystemAdapter.mk ⟨[("/etc/shadow", "root:a:1\nadmin:b:2\nuser:c:3")], [], []⟩ false)
      (BackupAdapter.openWrite false)).1
    "root:a:1\nadmin:b:2\nuser:c:3" "admin:b:2" (by decide) (by decide)

/-- Witness for C7 on the populated root: the restored rsa host key gets mode
`0o600`. -/
theorem claim_c7_witness :
    dictLookup (StateManager.handle_special_component ssh_infrastructure_component
        (FilesystemAdapter.mk populated_root false)
        (FilesystemAdapter.mk empty_root false)).2.fs.modes
      "/etc/ssh/ssh_host_rsa_key" = some 0o600 := by
  have h := ((claim_c7_ssh_handler_permissions (FilesystemAdapter.mk populated_root false)
      (BackupAdapter.openWrite false) (FilesystemAdapter.mk empty_root false) empty_root).2.2
      "rsa" (by decide) "rsapriv").1 (by decide)
  simpa using h

/-- Witness for C9 on a root whose only content is an empty config file. -/
theorem claim_c9_witness :
    (StateManager.backup_state false
        (Filesystem.mk [("/etc/sonic/config_db.json", "")] [] [])).1 = false
    ∧ dictLookup (archiveData (StateManager.backup_state false
        (Filesystem.mk [("/etc/sonic/config_db.json", "")] [] [])).2)
        "/etc/sonic/config_db.json" = none :=
  (claim_c9_empty_file_treated_as_missing).1
    (Filesystem.mk [("/etc/sonic/config_db.json", "")] [] []) (by decide)

end SonicState
